import Mathlib

/-
Shallow embedding of udsoncan/connections.py.

The mutable attributes a connection object carries (rxqueue, exit_requested,
opened, whether the rx thread was ever started, whether the transport handle
was closed) become the fields of ConnState.  The queue.Queue is modelled as a
FIFO list: put appends at the tail, get takes the head.  One iteration of the
rx thread body is a step function over the outcome of the transport read
(RecvEvent); a run of the loop folds the step over a list of read outcomes,
with the while-guard on exit_requested checked at the top of each iteration,
exactly as in the source.  Timeouts are rationals, standing for seconds.
The model is the sequential single-consumer view of the program: a
wait_frame call that finds the queue empty corresponds to a wait during
which no frame arrived within the timeout.
-/

namespace Udsoncan

/-- A frame: an opaque byte sequence, as delivered by the transport. -/
abbrev Frame := List Nat

/-- State of a connection object, the instance attributes set in SocketConnection
and IsoTPConnection.  threadStarted records whether rxthread.start was ever
called (a Python thread object can be started at most once); transportClosed
records whether the close method of the underlying socket was called. -/
structure ConnState where
  rxqueue : List Frame
  exit_requested : Bool
  opened : Bool
  threadStarted : Bool
  transportClosed : Bool
deriving Repr, DecidableEq

/-- ConnState right after the constructor runs: empty queue, exit_requested
False, opened False, thread created but not started, transport handle open. -/
def initState : ConnState :=
  { rxqueue := [], exit_requested := false, opened := false,
    threadStarted := false, transportClosed := false }

/-- Outcome of one transport read inside the rx thread loop body:
the read returned a datum (which the code compares against None),
raised socket.timeout, or raised any other exception. -/
inductive RecvEvent where
  | data (d : Option Frame)
  | sockTimeout
  | err
deriving Repr, DecidableEq

/-- One iteration of SocketConnection.rxthread_task (identical in
IsoTPConnection.rxthread_task): if the while-guard fails the body does not run;
otherwise a datum that is not None is put on rxqueue, socket.timeout is
ignored, and any other exception sets exit_requested. -/
def rxthread_step (s : ConnState) (e : RecvEvent) : ConnState :=
  if s.exit_requested then s
  else
    match e with
    | RecvEvent.data (some d) => { s with rxqueue := s.rxqueue ++ [d] }
    | RecvEvent.data none => s
    | RecvEvent.sockTimeout => s
    | RecvEvent.err => { s with exit_requested := true }

/-- A run of the rx thread loop over a sequence of transport read outcomes. -/
def rxthread_run (s : ConnState) : List RecvEvent → ConnState
  | [] => s
  | e :: es => rxthread_run (rxthread_step s e) es

/-- Result of a wait_frame call: a frame was returned, None was returned,
TimeoutException was raised (carrying the timeout that appears in its
message), or RuntimeError for a connection that is not opened. -/
inductive WaitResult where
  | frame (f : Frame)
  | noFrame
  | timeoutErr (timeout : ℚ)
  | notOpenErr
deriving Repr, DecidableEq

/-- SocketConnection.specific_wait_frame (identical control flow in
IsoTPConnection.specific_wait_frame): when not opened, raise RuntimeError or
return None according to the exception flag; otherwise block on
rxqueue.get with the timeout — the head of the queue when one is available,
queue.Empty (hence a timeout) when the queue stays empty. -/
def specific_wait_frame (s : ConnState) (timeout : ℚ) (exception : Bool) :
    WaitResult × ConnState :=
  if s.opened = false then
    (if exception then WaitResult.notOpenErr else WaitResult.noFrame, s)
  else
    match s.rxqueue with
    | [] => (if exception then WaitResult.timeoutErr timeout else WaitResult.noFrame, s)
    | f :: rest => (WaitResult.frame f, { s with rxqueue := rest })

/-- BaseConnection.wait_frame only logs around specific_wait_frame. -/
def wait_frame (s : ConnState) (timeout : ℚ) (exception : Bool) :
    WaitResult × ConnState :=
  specific_wait_frame s timeout exception

/-- n successive wait_frame calls, threading the state. -/
def wait_frames (s : ConnState) (timeout : ℚ) (exception : Bool) :
    Nat → List WaitResult × ConnState
  | 0 => ([], s)
  | Nat.succ n =>
    let p := wait_frame s timeout exception
    let q := wait_frames p.2 timeout exception n
    (p.1 :: q.1, q.2)

/-- The loop body of empty_rxqueue: while the queue is not empty, get. -/
def empty_rxqueue_loop : List Frame → List Frame
  | [] => []
  | _ :: rest => empty_rxqueue_loop rest

/-- SocketConnection.empty_rxqueue (identical in IsoTPConnection). -/
def empty_rxqueue (s : ConnState) : ConnState :=
  { s with rxqueue := empty_rxqueue_loop s.rxqueue }

/-- Python-level errors that the lifecycle methods can raise. -/
inductive PyError where
  | runtimeThreadError
deriving Repr, DecidableEq

/-- SocketConnection.open: clears exit_requested, then calls rxthread.start —
which, per the semantics of threading.Thread, raises RuntimeError when the
same thread object was already started once — then sets opened. -/
def SocketConnection.open_ (s : ConnState) : Except PyError ConnState :=
  let s1 : ConnState := { s with exit_requested := false }
  if s1.threadStarted then Except.error PyError.runtimeThreadError
  else Except.ok { s1 with threadStarted := true, opened := true }

/-- SocketConnection.close: sets exit_requested and clears opened.
The underlying socket is not touched. -/
def SocketConnection.close (s : ConnState) : ConnState :=
  { s with exit_requested := true, opened := false }

/-- IsoTPConnection.close: sets exit_requested, closes the tpsock,
clears opened. -/
def IsoTPConnection.close (s : ConnState) : ConnState :=
  { s with exit_requested := true, transportClosed := true, opened := false }

/-- SocketConnection.is_open returns the opened flag. -/
def SocketConnection.is_open (s : ConnState) : Bool :=
  s.opened

/-- A Request object, reduced to what send uses: its get_payload result. -/
structure Request where
  payload : Frame
deriving Repr, DecidableEq

/-- A Response object, reduced to what send uses: its get_payload result. -/
structure Response where
  payload : Frame
deriving Repr, DecidableEq

def Request.get_payload (r : Request) : Frame := r.payload

def Response.get_payload (r : Response) : Frame := r.payload

/-- The argument of BaseConnection.send: a Request, a Response, or any other
object, which the code treats as the payload itself. -/
inductive SendObj where
  | req (r : Request)
  | resp (r : Response)
  | raw (b : Frame)
deriving Repr, DecidableEq

/-- Payload selection in BaseConnection.send: get_payload for a Request or a
Response, the object itself otherwise. -/
def send_payload : SendObj → Frame
  | SendObj.req r => r.get_payload
  | SendObj.resp r => r.get_payload
  | SendObj.raw b => b

/-- SocketConnection.specific_send forwards the payload to sock.send;
the transmit log of the socket grows by the payload. -/
def specific_send (sent : List Frame) (payload : Frame) : List Frame :=
  sent ++ [payload]

/-- BaseConnection.send: selects the payload and calls specific_send.  The
ConnState argument mirrors self; no code on the send path reads opened or any
other state, so the result does not depend on it. -/
def send (s : ConnState) (sent : List Frame) (obj : SendObj) : List Frame :=
  specific_send sent (send_payload obj)

/-- A connection freshly opened from the initial state. -/
def openedS : ConnState :=
  { rxqueue := [], exit_requested := false, opened := true,
    threadStarted := true, transportClosed := false }

/-- An opened connection that was then closed. -/
def closedS : ConnState :=
  SocketConnection.close openedS

/-- An opened connection holding one queued frame. -/
def staleS : ConnState :=
  { rxqueue := [[5]], exit_requested := false, opened := true,
    threadStarted := true, transportClosed := false }

theorem rxthread_step_exit (s : ConnState) (e : RecvEvent)
    (h : s.exit_requested = true) : rxthread_step s e = s := by
  simp [rxthread_step, h]

theorem rxthread_run_exit (s : ConnState) (es : List RecvEvent)
    (h : s.exit_requested = true) : rxthread_run s es = s := by
  induction es with
  | nil => rfl
  | cons e es ih => rw [rxthread_run, rxthread_step_exit s e h, ih]

theorem rxthread_run_data (s : ConnState) (ds : List (Option Frame))
    (h : s.exit_requested = false) :
    rxthread_run s (ds.map RecvEvent.data)
      = { s with rxqueue := s.rxqueue ++ ds.filterMap id } := by
  induction ds generalizing s with
  | nil => cases s; simp [rxthread_run]
  | cons d ds ih =>
    cases d with
    | none =>
      rw [List.map_cons, rxthread_run]
      have hstep : rxthread_step s (RecvEvent.data none) = s := by
        simp [rxthread_step, h]
      rw [hstep, ih s h]
      simp
    | some f =>
      rw [List.map_cons, rxthread_run]
      have hstep : rxthread_step s (RecvEvent.data (some f))
          = { s with rxqueue := s.rxqueue ++ [f] } := by
        simp [rxthread_step, h]
      rw [hstep, ih { s with rxqueue := s.rxqueue ++ [f] } h]
      simp

theorem empty_rxqueue_loop_eq_nil (q : List Frame) :
    empty_rxqueue_loop q = [] := by
  induction q with
  | nil => rfl
  | cons f q ih => rw [empty_rxqueue_loop, ih]

theorem wait_frames_pop (q : List Frame) (s : ConnState) (t : ℚ) (e : Bool)
    (hop : s.opened = true) (hq : s.rxqueue = q) :
    wait_frames s t e q.length
      = (q.map WaitResult.frame, { s with rxqueue := [] }) := by
  induction q generalizing s with
  | nil =>
    cases s with
    | mk rq ex op ts tc =>
      simp only at hq
      subst hq
      rfl
  | cons f q ih =>
    have hw : wait_frame s t e = (WaitResult.frame f, { s with rxqueue := q }) := by
      simp [wait_frame, specific_wait_frame, hop, hq]
    rw [List.length_cons, wait_frames]
    simp only [hw]
    rw [ih { s with rxqueue := q } hop rfl]
    simp [List.map_cons]

/-- Claim C1: for every sequence of N frames delivered by the transport in
order f1..fN while the connection is Open (rx loop running, queue empty, no
other frames arriving), N successive wait_frame calls with sufficient timeout
return exactly f1..fN in that order, each frame delivered at most once, and
the queue ends empty. -/
theorem C1_fifo (s : ConnState) (fs : List Frame) (t : ℚ) (e : Bool)
    (hop : s.opened = true) (hex : s.exit_requested = false)
    (hq : s.rxqueue = []) :
    wait_frames (rxthread_run s (fs.map (fun f => RecvEvent.data (some f)))) t e fs.length
      = (fs.map WaitResult.frame, { s with rxqueue := [] }) := by
  have hmap : fs.map (fun f => RecvEvent.data (some f))
      = (fs.map some).map RecvEvent.data := by
    simp [List.map_map]
  rw [hmap, rxthread_run_data s (fs.map some) hex]
  have hflt : (fs.map some).filterMap id = fs := by
    simp [List.filterMap_map]
  exact wait_frames_pop fs _ t e hop (by simp [hq, hflt])

theorem C1_fifo_witness :
    wait_frames (rxthread_run openedS
        ([[1], [2], [3]].map (fun f => RecvEvent.data (some f)))) 2 false 3
      = ([WaitResult.frame [1], WaitResult.frame [2], WaitResult.frame [3]],
         { openedS with rxqueue := [] }) :=
  C1_fifo openedS [[1], [2], [3]] 2 false rfl rfl rfl

/-- Claim C2: a wait_frame call on an Open connection where no frame becomes
available within the timeout (queue empty, transport idle) returns None when
the exception flag is false and raises TimeoutException carrying the timeout
when it is true; the state is unchanged, so the connection remains Open. -/
theorem C2_timeout_behavior (s : ConnState) (t : ℚ)
    (hop : s.opened = true) (hq : s.rxqueue = []) :
    wait_frame s t false = (WaitResult.noFrame, s) ∧
    wait_frame s t true = (WaitResult.timeoutErr t, s) ∧
    SocketConnection.is_open s = true := by
  refine ⟨?_, ?_, hop⟩ <;> simp [wait_frame, specific_wait_frame, hop, hq]

theorem C2_timeout_behavior_witness :
    wait_frame openedS 2 false = (WaitResult.noFrame, openedS) ∧
    wait_frame openedS 2 true = (WaitResult.timeoutErr 2, openedS) ∧
    SocketConnection.is_open openedS = true :=
  C2_timeout_behavior openedS 2 rfl rfl

/-- Claim C3, counterexample: on a connection that was opened and then
closed, send is not rejected and it does touch the underlying transport —
the payload is handed to sock.send and the transmit log grows. -/
theorem C3_counterexample :
    closedS.opened = false ∧ send closedS [] (SendObj.raw [16, 3]) = [[16, 3]] :=
  ⟨rfl, rfl⟩

/-- Claim C3, amended: on a connection never opened or already closed,
wait_frame follows the not-open contract — None, or RuntimeError when the
exception flag is set — without touching the transport or the queue; send,
however, performs no open check and always forwards the payload to the
transport. -/
theorem C3_not_open (s : ConnState) (t : ℚ) (sent : List Frame) (obj : SendObj)
    (hop : s.opened = false) :
    wait_frame s t false = (WaitResult.noFrame, s) ∧
    wait_frame s t true = (WaitResult.notOpenErr, s) ∧
    send s sent obj = sent ++ [send_payload obj] := by
  refine ⟨?_, ?_, rfl⟩ <;> simp [wait_frame, specific_wait_frame, hop]

theorem C3_not_open_witness :
    wait_frame closedS 2 false = (WaitResult.noFrame, closedS) ∧
    wait_frame closedS 2 true = (WaitResult.notOpenErr, closedS) ∧
    send closedS [] (SendObj.raw [1]) = [[1]] :=
  C3_not_open closedS 2 [] (SendObj.raw [1]) rfl

/-- Claim C4, counterexample: an empty datum returned by the transport read
is pushed onto the queue — the code only compares the datum against None, so
empty data is not filtered out, contradicting pushed-only-when-non-empty. -/
theorem C4_counterexample :
    (rxthread_step openedS (RecvEvent.data (some []))).rxqueue = [([] : Frame)] :=
  rfl

/-- Claim C4, amended: in every iteration of the receive loop, a datum
returned by the transport read is pushed onto the frame queue exactly when it
is not None — including empty data — and every such datum is pushed exactly
once, in order, never dropped, coalesced or reordered. -/
theorem C4_push_all (s : ConnState) (ds : List (Option Frame))
    (hex : s.exit_requested = false) :
    (rxthread_run s (ds.map RecvEvent.data)).rxqueue
      = s.rxqueue ++ ds.filterMap id := by
  rw [rxthread_run_data s ds hex]

theorem C4_push_all_witness :
    (rxthread_run openedS
        ([some [1], none, some [], some [2]].map RecvEvent.data)).rxqueue
      = [[1], [], [2]] :=
  C4_push_all openedS [some [1], none, some [], some [2]] rfl

/-- Claim C5, counterexample: SocketConnection.close on an open connection
does not release the underlying transport — the socket handle stays open. -/
theorem C5_counterexample :
    openedS.opened = true ∧
    (SocketConnection.close openedS).transportClosed = false :=
  ⟨rfl, rfl⟩

/-- Claim C5, amended: close sets the lifecycle state to closed (opened
becomes false) and signals the receive loop to stop via exit_requested; the
IsoTP variant additionally closes its transport socket, but the socket
variant leaves the underlying socket handle untouched. -/
theorem C5_close_effect (s : ConnState) :
    (SocketConnection.close s).opened = false ∧
    (SocketConnection.close s).exit_requested = true ∧
    (SocketConnection.close s).transportClosed = s.transportClosed ∧
    (IsoTPConnection.close s).opened = false ∧
    (IsoTPConnection.close s).exit_requested = true ∧
    (IsoTPConnection.close s).transportClosed = true := by
  simp [SocketConnection.close, IsoTPConnection.close]

/-- Claim C6, counterexample: opening the initial state succeeds, but after a
close the second open call does not succeed — rxthread.start raises
RuntimeError because the same thread object was already started once. -/
theorem C6_counterexample :
    SocketConnection.open_ initState = Except.ok openedS ∧
    SocketConnection.open_ (SocketConnection.close openedS)
      = Except.error PyError.runtimeThreadError :=
  ⟨rfl, rfl⟩

/-- Claim C6, amended: calling open again after a close does not start a
fresh lifecycle: the call fails with RuntimeError since the background thread
object can be started at most once, and the frame queue keeps whatever frames
the previous lifecycle left in it. -/
theorem C6_reopen_fails (s : ConnState) (hts : s.threadStarted = true) :
    SocketConnection.open_ (SocketConnection.close s)
      = Except.error PyError.runtimeThreadError ∧
    (SocketConnection.close s).rxqueue = s.rxqueue := by
  refine ⟨?_, rfl⟩
  simp [SocketConnection.open_, SocketConnection.close, hts]

theorem C6_reopen_fails_witness :
    SocketConnection.open_ (SocketConnection.close staleS)
      = Except.error PyError.runtimeThreadError ∧
    (SocketConnection.close staleS).rxqueue = [[5]] :=
  C6_reopen_fails staleS rfl

/-- Claim C7: empty_rxqueue on an empty queue is a no-op; after
empty_rxqueue every previously queued frame is discarded, so the next
wait_frame on the open connection times out — returning None, or raising
TimeoutException when the exception flag is set — even when frames were
queued before the drain. -/
theorem C7_drain (s : ConnState) (t : ℚ) (hop : s.opened = true) :
    empty_rxqueue { s with rxqueue := [] } = { s with rxqueue := [] } ∧
    wait_frame (empty_rxqueue s) t false
      = (WaitResult.noFrame, empty_rxqueue s) ∧
    wait_frame (empty_rxqueue s) t true
      = (WaitResult.timeoutErr t, empty_rxqueue s) := by
  refine ⟨?_, ?_, ?_⟩ <;>
    simp [empty_rxqueue, empty_rxqueue_loop_eq_nil, wait_frame,
      specific_wait_frame, hop]

theorem C7_drain_witness :
    empty_rxqueue { staleS with rxqueue := [] } = { staleS with rxqueue := [] } ∧
    wait_frame (empty_rxqueue staleS) 2 false
      = (WaitResult.noFrame, empty_rxqueue staleS) ∧
    wait_frame (empty_rxqueue staleS) 2 true
      = (WaitResult.timeoutErr 2, empty_rxqueue staleS) :=
  C7_drain staleS 2 rfl

/-- Claim C8: when the transport read in the receive loop raises anything
other than a transport timeout, the loop sets exit_requested — its Stopped
state — pushes nothing in that iteration, and performs no further reads or
pushes no matter what the transport would produce; is_open still reports
open, and wait_frame keeps following the Open contract, timing out once the
queue is empty. -/
theorem C8_fatal_error (s : ConnState) (es : List RecvEvent) (t : ℚ)
    (hop : s.opened = true) (hex : s.exit_requested = false) :
    (rxthread_step s RecvEvent.err).exit_requested = true ∧
    (rxthread_step s RecvEvent.err).rxqueue = s.rxqueue ∧
    rxthread_run (rxthread_step s RecvEvent.err) es = rxthread_step s RecvEvent.err ∧
    SocketConnection.is_open (rxthread_step s RecvEvent.err) = true ∧
    wait_frame { rxthread_step s RecvEvent.err with rxqueue := [] } t false
      = (WaitResult.noFrame, { rxthread_step s RecvEvent.err with rxqueue := [] }) ∧
    wait_frame { rxthread_step s RecvEvent.err with rxqueue := [] } t true
      = (WaitResult.timeoutErr t, { rxthread_step s RecvEvent.err with rxqueue := [] }) := by
  have hstep : rxthread_step s RecvEvent.err = { s with exit_requested := true } := by
    simp [rxthread_step, hex]
  rw [hstep]
  refine ⟨rfl, rfl, rxthread_run_exit _ es rfl, hop, ?_, ?_⟩ <;>
    simp [wait_frame, specific_wait_frame, hop]

theorem C8_fatal_error_witness :
    (rxthread_step openedS RecvEvent.err).exit_requested = true ∧
    (rxthread_step openedS RecvEvent.err).rxqueue = openedS.rxqueue ∧
    rxthread_run (rxthread_step openedS RecvEvent.err) [RecvEvent.data (some [9])]
      = rxthread_step openedS RecvEvent.err ∧
    SocketConnection.is_open (rxthread_step openedS RecvEvent.err) = true ∧
    wait_frame { rxthread_step openedS RecvEvent.err with rxqueue := [] } 2 false
      = (WaitResult.noFrame, { rxthread_step openedS RecvEvent.err with rxqueue := [] }) ∧
    wait_frame { rxthread_step openedS RecvEvent.err with rxqueue := [] } 2 true
      = (WaitResult.timeoutErr 2, { rxthread_step openedS RecvEvent.err with rxqueue := [] }) :=
  C8_fatal_error openedS [RecvEvent.data (some [9])] 2 rfl rfl

/-- Claim C9: with the exception flag false, wait_frame never raises — the
result is a frame or None; it is None both when the connection is not open
and when the queue is empty (a wait that times out), so a None result does
not distinguish the two causes; when the connection is open and a frame is
queued, that frame is returned. -/
theorem C9_no_raise (s : ConnState) (t : ℚ) :
    ((wait_frame s t false).1 = WaitResult.noFrame ∨
      ∃ f, (wait_frame s t false).1 = WaitResult.frame f) ∧
    (s.opened = false → wait_frame s t false = (WaitResult.noFrame, s)) ∧
    (s.rxqueue = [] → wait_frame s t false = (WaitResult.noFrame, s)) ∧
    (∀ f q, s.opened = true → s.rxqueue = f :: q →
      wait_frame s t false = (WaitResult.frame f, { s with rxqueue := q })) := by
  refine ⟨?_, ?_, ?_, ?_⟩
  · cases hop : s.opened with
    | false => left; simp [wait_frame, specific_wait_frame, hop]
    | true =>
      cases hq : s.rxqueue with
      | nil => left; simp [wait_frame, specific_wait_frame, hop, hq]
      | cons f rest =>
        right; exact ⟨f, by simp [wait_frame, specific_wait_frame, hop, hq]⟩
  · intro hop; simp [wait_frame, specific_wait_frame, hop]
  · intro hq
    cases hop : s.opened with
    | false => simp [wait_frame, specific_wait_frame, hop]
    | true => simp [wait_frame, specific_wait_frame, hop, hq]
  · intro f q hop hq; simp [wait_frame, specific_wait_frame, hop, hq]

theorem C9_no_raise_witness :
    wait_frame closedS 2 false = (WaitResult.noFrame, closedS) ∧
    wait_frame staleS 2 false = (WaitResult.frame [5], { staleS with rxqueue := [] }) :=
  ⟨(C9_no_raise closedS 2).2.1 rfl, (C9_no_raise staleS 2).2.2.2 [5] [] rfl rfl⟩

/-- Claim C10: send transmits exactly get_payload of a Request or Response
argument, and transmits any other argument unmodified. -/
theorem C10_send_payload (s : ConnState) (sent : List Frame)
    (r : Request) (p : Response) (b : Frame) :
    send s sent (SendObj.req r) = sent ++ [r.get_payload] ∧
    send s sent (SendObj.resp p) = sent ++ [p.get_payload] ∧
    send s sent (SendObj.raw b) = sent ++ [b] :=
  ⟨rfl, rfl, rfl⟩

end Udsoncan
